import Mathlib

/-!
Shallow embedding of the `ezdb` Go package (src/ezdb.go): a thin typed
key-value layer over an LMDB-style storage engine.  The engine itself
(`wellquite.org/golmdb`), the `encoding/gob` codec and the filesystem are
external collaborators; they are modelled by small executable structures
(`Engine`, `Codec`, `World`) faithful to the interface the source consumes.
Go errors built with `errors.New` / `errors.Join` become the `GoErr` tree,
with `errorsIs` mirroring `errors.Is`.  Go panics (nil-pointer dereference,
explicit `panic(...)`) become the `panicked` constructor of the result types.
-/

namespace Ezdb

/-- Message of the sentinel error `ErrPutFailed` (src/ezdb.go line 15). -/
def putKeySentinelMsg : String := "failed to put key"

/-- Message of the sentinel error `ErrGetFailed` (src/ezdb.go line 16). -/
def getKeySentinelMsg : String := "failed to get key"

/-- Message prefix used when directory creation fails in `initRef`. -/
def mkdirFailMsg : String := "failed to create db directory: "

/-- Message prefix used when the engine open fails in `initRef`. -/
def openFailMsg : String := "failed to open db: "

/-- Message returned by `initRef` when the once-guarded open left no connection. -/
def initFailMsg : String := "failed to initialize database"

/-- Message prefix used when sub-database resolution fails in `initRef`. -/
def openRefFailMsg : String := "failed to open db ref: "

/-- Message prefix used when sub-database resolution fails in `Put`/`Get`. -/
def getDbRefMsg : String := "failed to get db ref: "

/-- Message prefix for key-encoding failures in `Put`/`Get`. -/
def encKeyMsg : String := "failed to encode key: "

/-- Message prefix for value-encoding failures in `Put`. -/
def encValMsg : String := "failed to encode value: "

/-- Message prefix for engine-write failures in `Put`. -/
def putFailMsg : String := "failed to put key: "

/-- Message prefix for engine-read failures in `Get`. -/
def getFailMsg : String := "failed to get key: "

/-- Message prefix for value-decoding failures in `Get` and in `decode`. -/
def decValMsg : String := "failed to decode value: "

/-- Message prefix the package-level `encode` helper adds to codec failures. -/
def encodeWrapMsg : String := "failed to encode value: "

/-- Engine error for a sub-database name that is not registered (LMDB MDB_NOTFOUND). -/
def notFoundMsg : String := "MDB_NOTFOUND"

/-- Engine error when the configured number of sub-databases is exhausted. -/
def dbsFullMsg : String := "MDB_DBS_FULL"

/-- Engine error when the environment's memory map is exhausted, the
engine-internal condition on which a write fails. -/
def mapFullMsg : String := "MDB_MAP_FULL"

/-- Go runtime message for a nil-pointer dereference. -/
def nilDerefMsg : String := "runtime error: invalid memory address or nil pointer dereference"

/-- Go errors: `errors.New` makes a leaf, `errors.Join` a node whose children
are reachable by `errors.Is`. -/
inductive GoErr where
  | newErr (s : String)
  | joinErr (a b : GoErr)
deriving DecidableEq

/-- Embedding of `errors.Is`: the target is the error itself or reachable
through the join tree. -/
def errorsIs : GoErr → GoErr → Bool
  | GoErr.newErr s, t => GoErr.newErr s = t
  | GoErr.joinErr a b, t => GoErr.joinErr a b = t || errorsIs a t || errorsIs b t

/-- The sentinel `ErrPutFailed` (src/ezdb.go line 15). -/
def ErrPutFailed : GoErr := GoErr.newErr putKeySentinelMsg

/-- The sentinel `ErrGetFailed` (src/ezdb.go line 16). -/
def ErrGetFailed : GoErr := GoErr.newErr getKeySentinelMsg

/-- Lookup in an association list keyed by (sub-database name, key bytes). -/
def lookupKV : List ((String × List Nat) × List Nat) → (String × List Nat) → Option (List Nat)
  | [], _ => none
  | (k, v) :: rest, q => if k = q then some v else lookupKV rest q

/-- Insert/overwrite in an association list keyed by (sub-database name, key bytes). -/
def insertKV : List ((String × List Nat) × List Nat) → (String × List Nat) → List Nat → List ((String × List Nat) × List Nat)
  | [], q, nv => [(q, nv)]
  | (k, v) :: rest, q, nv => if k = q then (q, nv) :: rest else (k, v) :: insertKV rest q nv

/-- Model of the external LMDB environment: the registered sub-database
names (bounded by the configured `numDbs`), the byte-level store, and
whether the memory map is exhausted — the engine-internal condition under
which a write fails with MDB_MAP_FULL. -/
structure Engine where
  maxDbs : Nat
  dbs : List String
  store : List ((String × List Nat) × List Nat)
  mapFull : Bool
deriving DecidableEq

/-- Model of `txn.DBRef(name, lmdb.DatabaseFlag(0x40000))` (MDB_CREATE):
an already-registered name resolves as-is; a new name is registered unless
the sub-database budget is exhausted. -/
def dbRefCreate (eng : Engine) (name : String) : Except String Engine :=
  if eng.dbs.contains name then Except.ok eng
  else if eng.dbs.length < eng.maxDbs then Except.ok { eng with dbs := name :: eng.dbs }
  else Except.error dbsFullMsg

/-- Model of `txn.DBRef(name, lmdb.DatabaseFlag(0))`: resolves only an
already-registered name. -/
def dbRefExisting (eng : Engine) (name : String) : Except String Unit :=
  if eng.dbs.contains name then Except.ok () else Except.error notFoundMsg

/-- Model of `txn.Get(dbRef, keyBytes)`: a missing key is an engine error. -/
def engineGet (eng : Engine) (name : String) (keyB : List Nat) : Except String (List Nat) :=
  match lookupKV eng.store (name, keyB) with
  | some v => Except.ok v
  | none => Except.error notFoundMsg

/-- Model of `txn.Put(dbRef, keyBytes, valueBytes, lmdb.PutFlag(0))`:
overwrites the entry at the key bytes, or fails when the engine's memory
map is exhausted. -/
def enginePut (eng : Engine) (name : String) (keyB valB : List Nat) : Except String Engine :=
  if eng.mapFull then Except.error mapFullMsg
  else Except.ok { eng with store := insertKV eng.store (name, keyB) valB }

/-- Serialization scheme standing for `encoding/gob` at one declared type,
an external collaborator of the source.  Modelled from the spec: the
serialization contract of section 4.3 requires `decode(encode(x)) == x`
for the declared type, which `round` records. -/
structure Codec (α : Type) where
  enc : α → Except String (List Nat)
  dec : List Nat → Except String α
  round : ∀ x b, enc x = Except.ok b → dec b = Except.ok x

/-- Embedding of the package-level `encode` helper (src/ezdb.go lines 224-232). -/
def encode {α : Type} (c : Codec α) (x : α) : Except String (List Nat) :=
  match c.enc x with
  | Except.ok b => Except.ok b
  | Except.error e => Except.error (encodeWrapMsg ++ e)

/-- Embedding of the package-level `decode` helper (src/ezdb.go lines 236-244). -/
def decode {α : Type} (c : Codec α) (b : List Nat) : Except String α :=
  match c.dec b with
  | Except.ok v => Except.ok v
  | Except.error e => Except.error (decValMsg ++ e)

/-- Model of a `zerolog.Logger`: the default is the no-op `zerolog.Nop()`. -/
inductive Logger where
  | nop
  | custom (tag : String)
deriving DecidableEq

/-- Embedding of the `options` struct (src/ezdb.go lines 22-27): each field
is a nullable pointer. -/
structure RawOptions where
  numReaders : Option Nat
  numDbs : Option Nat
  batchSize : Option Nat
  log : Option Logger
deriving DecidableEq

/-- Embedding of the four declared `Option` constructors
(`WithNumReaders`, `WithNumDBs`, `WithBatchSize`, `WithLogger`,
src/ezdb.go lines 29-55). -/
inductive DBOption where
  | withNumReaders (n : Nat)
  | withNumDBs (n : Nat)
  | withBatchSize (n : Nat)
  | withLogger (l : Logger)
deriving DecidableEq

/-- Application of one option closure to the options struct; every declared
constructor stores its argument and returns a nil error. -/
def applyOption (o : RawOptions) : DBOption → Except String RawOptions
  | DBOption.withNumReaders n => Except.ok { o with numReaders := some n }
  | DBOption.withNumDBs n => Except.ok { o with numDbs := some n }
  | DBOption.withBatchSize n => Except.ok { o with batchSize := some n }
  | DBOption.withLogger l => Except.ok { o with log := some l }

/-- The option-application loop of `New` (src/ezdb.go lines 66-71). -/
def applyOptions : RawOptions → List DBOption → Except String RawOptions
  | o, [] => Except.ok o
  | o, opt :: rest =>
    match applyOption o opt with
    | Except.error e => Except.error e
    | Except.ok o2 => applyOptions o2 rest

/-- Embedding of the `Client` struct (src/ezdb.go lines 57-62): the engine
connection pointer (`nil` until the lazy open), the path, the `sync.Once`
guard (modelled as the boolean `initOnceDone`, true once `Do` has run its
function, also when that function panicked) and the resolved options. -/
structure Client where
  db : Option Engine
  path : String
  initOnceDone : Bool
  options : RawOptions
deriving DecidableEq

/-- The default-filling block of `New` (src/ezdb.go lines 73-89): each nil
field is replaced by its default (8 readers, 1 sub-database, batch size 1,
no-op logger). -/
def fillDefaults (o : RawOptions) : RawOptions :=
  let o1 := match o.numReaders with
    | none => { o with numReaders := some 8 }
    | some _ => o
  let o2 := match o1.numDbs with
    | none => { o1 with numDbs := some 1 }
    | some _ => o1
  let o3 := match o2.batchSize with
    | none => { o2 with batchSize := some 1 }
    | some _ => o2
  match o3.log with
  | none => { o3 with log := some Logger.nop }
  | some _ => o3

/-- Embedding of `New` (src/ezdb.go lines 64-96): applies the options, fills
the defaults and returns a client with a nil connection. -/
def new (path : String) (opts : List DBOption) : Except String Client :=
  match applyOptions { numReaders := none, numDbs := none, batchSize := none, log := none } opts with
  | Except.error e => Except.error e
  | Except.ok o =>
    Except.ok { db := none, path := path, initOnceDone := false, options := fillDefaults o }

/-- Result of a Go call that can return normally, return an error, or panic. -/
inductive Outcome (α : Type) where
  | ok (a : α)
  | errored (e : GoErr)
  | panicked (msg : String)
deriving DecidableEq

/-- Result of `Get`, which returns a value pointer alongside an optional
error, or panics. -/
inductive GetOut (V : Type) where
  | ret (v : V) (e : Option GoErr)
  | panicked (msg : String)
deriving DecidableEq

/-- Embedding of `Client.Close` (src/ezdb.go lines 98-100): `TerminateSync`
on a nil connection dereferences absent engine state and panics. -/
def close (cl : Client) : Outcome Unit :=
  match cl.db with
  | none => Outcome.panicked nilDerefMsg
  | some _ => Outcome.ok ()

/-- Embedding of the `DBRef[K, V]` struct (src/ezdb.go lines 102-108): the
sub-database identifier and the owner pointer, with `hasOwner = false`
standing for a nil `ownerDB` (the zero value of an uninitialized reference). -/
structure DBRef where
  id : String
  hasOwner : Bool
deriving DecidableEq

/-- The zero value of `DBRef[K, V]`: an uninitialized reference. -/
def DBRef.uninit : DBRef := { id := "", hasOwner := false }

/-- External outcomes of the filesystem and engine-open calls performed
inside the once guard of `initRef`: whether `os.Stat` finds the directory,
whether `os.MkdirAll` succeeds, whether `lmdb.NewLMDB` succeeds. -/
structure World where
  dirExists : Bool
  mkdirOk : Bool
  openOk : Bool
deriving DecidableEq

/-- Embedding of the `db.initOnce.Do(...)` body of `initRef`
(src/ezdb.go lines 115-130): on the first call it creates the directory if
absent and opens the engine, panicking on either failure (the `Once` is
still marked done, as `sync.Once.Do` does when its function panics); on
every later call it is a no-op.  Returns the updated client and the panic
message, if any. -/
def ensureOpen (w : World) (cl : Client) : Client × Option String :=
  if cl.initOnceDone then (cl, none)
  else
    let c := { cl with initOnceDone := true }
    if w.dirExists = false ∧ w.mkdirOk = false then (c, some mkdirFailMsg)
    else if w.openOk = false then (c, some openFailMsg)
    else ({ c with db := some { maxDbs := cl.options.numDbs.getD 1, dbs := [], store := [], mapFull := false } }, none)

/-- Embedding of `initRef` (src/ezdb.go lines 114-155): run the once-guarded
open (propagating its panic), fail if the connection is still nil, then
register the named sub-database with the create flag inside a write
transaction and bind the reference. -/
def initRef (w : World) (refID : String) (cl : Client) : Outcome DBRef × Client :=
  match ensureOpen w cl with
  | (cl1, some msg) => (Outcome.panicked msg, cl1)
  | (cl1, none) =>
    match cl1.db with
    | none => (Outcome.errored (GoErr.newErr initFailMsg), cl1)
    | some eng =>
      match dbRefCreate eng refID with
      | Except.error e => (Outcome.errored (GoErr.newErr (openRefFailMsg ++ e)), cl1)
      | Except.ok eng2 =>
        (Outcome.ok { id := refID, hasOwner := true }, { cl1 with db := some eng2 })

/-- Body of the write transaction of `Put` (src/ezdb.go lines 158-182):
resolve the sub-database without the create flag, encode key and value,
write the value bytes under the key bytes (overwriting, and fallible at
the engine).  An error at any step aborts the transaction, leaving the
engine unchanged. -/
def putTxn {K V : Type} (cK : Codec K) (cV : Codec V) (id : String) (k : K) (v : V) (eng : Engine) : Except String Engine :=
  match dbRefExisting eng id with
  | Except.error e => Except.error (getDbRefMsg ++ e)
  | Except.ok _ =>
    match encode cK k with
    | Except.error e => Except.error (encKeyMsg ++ e)
    | Except.ok keyB =>
      match encode cV v with
      | Except.error e => Except.error (encValMsg ++ e)
      | Except.ok valB =>
        match enginePut eng id keyB valB with
        | Except.error e => Except.error (putFailMsg ++ e)
        | Except.ok eng2 => Except.ok eng2

/-- Embedding of `DBRef.Put` (src/ezdb.go lines 157-188): dereference the
owner and its connection (panicking when nil), run the write transaction
(commit on success, abort on failure) and classify any failure under
`ErrPutFailed` via `errors.Join`. -/
def put {K V : Type} (cK : Codec K) (cV : Codec V) (ref : DBRef) (cl : Client) (k : K) (v : V) : Outcome Unit × Client :=
  if ref.hasOwner = false then (Outcome.panicked nilDerefMsg, cl)
  else
    match cl.db with
    | none => (Outcome.panicked nilDerefMsg, cl)
    | some eng =>
      match putTxn cK cV ref.id k v eng with
      | Except.error e => (Outcome.errored (GoErr.joinErr ErrPutFailed (GoErr.newErr e)), cl)
      | Except.ok eng2 => (Outcome.ok (), { cl with db := some eng2 })

/-- Body of the read-only transaction of `Get` (src/ezdb.go lines 191-216):
resolve the sub-database, encode the key, fetch the raw bytes (a missing
key is an engine error) and decode them. -/
def getTxn {K V : Type} (cK : Codec K) (cV : Codec V) (id : String) (k : K) (eng : Engine) : Except String V :=
  match dbRefExisting eng id with
  | Except.error e => Except.error (getDbRefMsg ++ e)
  | Except.ok _ =>
    match encode cK k with
    | Except.error e => Except.error (encKeyMsg ++ e)
    | Except.ok keyB =>
      match engineGet eng id keyB with
      | Except.error e => Except.error (getFailMsg ++ e)
      | Except.ok valB =>
        match decode cV valB with
        | Except.error e => Except.error (decValMsg ++ e)
        | Except.ok v => Except.ok v

/-- Embedding of `DBRef.Get` (src/ezdb.go lines 190-222): dereference the
owner and its connection (panicking when nil), run the read-only
transaction, and on failure return the zero value of `V` (Go's `new(V)`,
passed as `zeroV`) together with the failure classified under
`ErrGetFailed` via `errors.Join`. -/
def get {K V : Type} (cK : Codec K) (cV : Codec V) (zeroV : V) (ref : DBRef) (cl : Client) (k : K) : GetOut V :=
  if ref.hasOwner = false then GetOut.panicked nilDerefMsg
  else
    match cl.db with
    | none => GetOut.panicked nilDerefMsg
    | some eng =>
      match getTxn cK cV ref.id k eng with
      | Except.error e => GetOut.ret zeroV (some (GoErr.joinErr ErrGetFailed (GoErr.newErr e)))
      | Except.ok v => GetOut.ret v none

/-! Concrete fixtures used by the witness theorems. -/

/-- Message the model codec reports on a byte pattern it cannot decode. -/
def gobMismatchMsg : String := "gob: type mismatch"

/-- A concrete codec for `Nat` standing for gob at a concrete declared type. -/
def natCodec : Codec Nat where
  enc n := Except.ok [n]
  dec b :=
    match b with
    | [n] => Except.ok n
    | _ => Except.error gobMismatchMsg
  round := by
    intro x b h
    cases h
    rfl

/-- Options as `New` resolves them with no option supplied. -/
def defaultOptions : RawOptions :=
  { numReaders := some 8, numDbs := some 1, batchSize := some 1, log := some Logger.nop }

/-- A freshly constructed client (nil connection, once guard not yet run). -/
def clFresh : Client :=
  { db := none, path := "/data/x", initOnceDone := false, options := defaultOptions }

/-- The client after the once guard ran and failed (connection still nil). -/
def clFailed : Client := { clFresh with initOnceDone := true }

/-- A world where everything succeeds. -/
def okWorld : World := { dirExists := true, mkdirOk := true, openOk := true }

/-- A world where the backing directory is absent and cannot be created. -/
def badDirWorld : World := { dirExists := false, mkdirOk := false, openOk := true }

/-- A world where the engine open fails. -/
def badOpenWorld : World := { dirExists := true, mkdirOk := true, openOk := false }

/-- The engine right after a successful open and registration of "users". -/
def engUsers : Engine := { maxDbs := 1, dbs := ["users"], store := [], mapFull := false }

/-- An engine with "users" registered but the memory map exhausted. -/
def engFull : Engine := { maxDbs := 1, dbs := ["users"], store := [], mapFull := true }

/-- The client after a successful first initialization of "users". -/
def clOpened : Client :=
  { db := some engUsers, path := "/data/x", initOnceDone := true, options := defaultOptions }

/-- The reference bound to "users". -/
def refUsers : DBRef := { id := "users", hasOwner := true }

/-- A reference whose sub-database name was never registered. -/
def refGhost : DBRef := { id := "ghost", hasOwner := true }

/-- The client after `put` stored key bytes [1] and value bytes [2] at "users". -/
def clPut : Client :=
  { clOpened with db := some { engUsers with store := [(("users", [1]), [2])] } }

/-- A client whose engine can no longer accept writes. -/
def clFull : Client :=
  { db := some engFull, path := "/data/x", initOnceDone := true, options := defaultOptions }

/-! Helper lemmas. -/

/-- Every error is reachable from itself, as with `errors.Is`. -/
lemma errorsIs_self (e : GoErr) : errorsIs e e = true := by
  cases e with
  | newErr s => simp [errorsIs]
  | joinErr a b => simp [errorsIs]

/-- A joined error is classified as its left component. -/
lemma errorsIs_join_left (a b : GoErr) : errorsIs (GoErr.joinErr a b) a = true := by
  simp [errorsIs, errorsIs_self]

/-- Looking up a key just inserted returns the inserted value. -/
lemma lookupKV_insertKV_self (s : List ((String × List Nat) × List Nat))
    (q : String × List Nat) (nv : List Nat) :
    lookupKV (insertKV s q nv) q = some nv := by
  induction s with
  | nil => simp [insertKV, lookupKV]
  | cons hd tl ih =>
    obtain ⟨k, v⟩ := hd
    by_cases hk : k = q
    · simp [insertKV, hk, lookupKV]
    · simp [insertKV, hk, lookupKV, ih]

/-- The `encode` wrapper succeeds exactly when the underlying codec does. -/
lemma encode_ok_iff {α : Type} (c : Codec α) (x : α) (b : List Nat) :
    encode c x = Except.ok b ↔ c.enc x = Except.ok b := by
  cases h : c.enc x <;> simp [encode, h]

/-- A successful no-create sub-database resolution means the name is registered. -/
lemma dbRefExisting_ok {eng : Engine} {id : String} {u : Unit}
    (h : dbRefExisting eng id = Except.ok u) : id ∈ eng.dbs := by
  by_cases hc : id ∈ eng.dbs
  · exact hc
  · simp [dbRefExisting, hc] at h

/-- Resolving an already-registered name with the create flag is the identity. -/
lemma dbRefCreate_of_contains {eng : Engine} {n : String}
    (h : n ∈ eng.dbs) : dbRefCreate eng n = Except.ok eng := by
  simp [dbRefCreate, h]

/-- A successful create-flag resolution leaves the name registered. -/
lemma dbRefCreate_ok_contains {eng eng2 : Engine} {n : String}
    (h : dbRefCreate eng n = Except.ok eng2) : n ∈ eng2.dbs := by
  by_cases hc : n ∈ eng.dbs
  · simp [dbRefCreate, hc] at h
    rw [← h]
    exact hc
  · by_cases hl : eng.dbs.length < eng.maxDbs
    · simp [dbRefCreate, hc, hl] at h
      rw [← h]
      simp
    · simp [dbRefCreate, hc, hl] at h

/-- Inversion of a successful `putTxn`: the sub-database was registered, both
encodes succeeded, the engine accepted the write, and the store gained the
pair. -/
lemma putTxn_ok_inv {K V : Type} (cK : Codec K) (cV : Codec V) (id : String)
    (k : K) (v : V) (eng eng2 : Engine)
    (h : putTxn cK cV id k v eng = Except.ok eng2) :
    ∃ keyB valB, id ∈ eng.dbs ∧ cK.enc k = Except.ok keyB ∧
      cV.enc v = Except.ok valB ∧ eng.mapFull = false ∧
      eng2 = { eng with store := insertKV eng.store (id, keyB) valB } := by
  cases hc : dbRefExisting eng id with
  | error e => simp [putTxn, hc] at h
  | ok u =>
    cases hk : encode cK k with
    | error e => simp [putTxn, hc, hk] at h
    | ok keyB =>
      cases hv : encode cV v with
      | error e => simp [putTxn, hc, hk, hv] at h
      | ok valB =>
        cases hm : eng.mapFull with
        | true => simp [putTxn, hc, hk, hv, enginePut, hm] at h
        | false =>
          simp [putTxn, hc, hk, hv, enginePut, hm] at h
          exact ⟨keyB, valB, dbRefExisting_ok hc, (encode_ok_iff cK k keyB).mp hk,
            (encode_ok_iff cV v valB).mp hv, rfl, h.symm⟩

/-- The read transaction succeeds on a registered name, an encodable key,
a stored byte string and a decodable value. -/
lemma getTxn_ok {K V : Type} (cK : Codec K) (cV : Codec V) (id : String)
    (k : K) (eng : Engine) (keyB valB : List Nat) (v : V)
    (hc : id ∈ eng.dbs) (hk : cK.enc k = Except.ok keyB)
    (hl : lookupKV eng.store (id, keyB) = some valB)
    (hv : cV.dec valB = Except.ok v) :
    getTxn cK cV id k eng = Except.ok v := by
  simp [getTxn, dbRefExisting, hc, encode, hk, engineGet, hl, decode, hv]

/-! Claim theorems. -/

/-- C1: on an initialized reference, a successful `Put(k, v)` followed by
`Get(k)` returns exactly `v` with no error; decode after encode is the
identity for the declared type. -/
theorem c1_put_get_roundtrip {K V : Type} (cK : Codec K) (cV : Codec V)
    (zeroV : V) (ref : DBRef) (cl cl2 : Client) (k : K) (v : V)
    (h : put cK cV ref cl k v = (Outcome.ok (), cl2)) :
    get cK cV zeroV ref cl2 k = GetOut.ret v none := by
  by_cases hw : ref.hasOwner = false
  · simp [put, hw] at h
  · cases hdb : cl.db with
    | none => simp [put, hw, hdb] at h
    | some eng =>
      cases hp : putTxn cK cV ref.id k v eng with
      | error e => simp [put, hw, hdb, hp] at h
      | ok eng2 =>
        simp [put, hw, hdb, hp] at h
        obtain ⟨keyB, valB, hc, hk, hv, hmf, heng⟩ :=
          putTxn_ok_inv cK cV ref.id k v eng eng2 hp
        have hgt : getTxn cK cV ref.id k eng2 = Except.ok v := by
          apply getTxn_ok cK cV ref.id k eng2 keyB valB v
          · rw [heng]
            exact hc
          · exact hk
          · rw [heng]
            exact lookupKV_insertKV_self eng.store (ref.id, keyB) valB
          · exact cV.round v valB hv
        rw [← h]
        simp [get, hw, hgt]

/-- C1 witness: a concrete round trip through the "users" reference. -/
theorem c1_witness : get natCodec natCodec 0 refUsers clPut 1 = GetOut.ret 2 none :=
  c1_put_get_roundtrip natCodec natCodec 0 refUsers clOpened clPut 1 2 rfl

/-- C2: whenever `Get` fails — in particular on a key never put — it returns
the zero value of `V` together with an error classified as `ErrGetFailed`
wrapping the cause; a missing key is such a failure, never a silent zero. -/
theorem c2_get_failure_zero_and_kind {K V : Type} (cK : Codec K) (cV : Codec V)
    (zeroV : V) (ref : DBRef) (cl : Client) (k : K) :
    (∀ v e, get cK cV zeroV ref cl k = GetOut.ret v (some e) →
      v = zeroV ∧ errorsIs e ErrGetFailed = true) ∧
    (∀ eng keyB, ref.hasOwner = true → cl.db = some eng → ref.id ∈ eng.dbs →
      cK.enc k = Except.ok keyB → lookupKV eng.store (ref.id, keyB) = none →
      get cK cV zeroV ref cl k =
        GetOut.ret zeroV (some (GoErr.joinErr ErrGetFailed
          (GoErr.newErr (getFailMsg ++ notFoundMsg))))) := by
  constructor
  · intro v e h
    by_cases hw : ref.hasOwner = false
    · simp [get, hw] at h
    · cases hdb : cl.db with
      | none => simp [get, hw, hdb] at h
      | some eng =>
        cases hg : getTxn cK cV ref.id k eng with
        | error msg =>
          simp [get, hw, hdb, hg] at h
          refine ⟨h.1.symm, ?_⟩
          rw [← h.2]
          exact errorsIs_join_left _ _
        | ok v2 => simp [get, hw, hdb, hg] at h
  · intro eng keyB hw hdb hc hk hl
    have hg : getTxn cK cV ref.id k eng = Except.error (getFailMsg ++ notFoundMsg) := by
      simp [getTxn, dbRefExisting, hc, encode, hk, engineGet, hl]
    simp [get, hw, hdb, hg]

/-- C2 witness: getting the never-put key 5 from the fresh "users" reference
yields the zero value and a `GetFailed`-classified error. -/
theorem c2_witness :
    get natCodec natCodec 0 refUsers clOpened 5 =
      GetOut.ret 0 (some (GoErr.joinErr ErrGetFailed
        (GoErr.newErr (getFailMsg ++ notFoundMsg)))) :=
  (c2_get_failure_zero_and_kind natCodec natCodec 0 refUsers clOpened 5).2
    engUsers [5] rfl rfl (by simp [engUsers, refUsers]) rfl rfl

/-- C3: a failing `Put` leaves the client (hence the stored state) unchanged
and returns an error classified as `ErrPutFailed` wrapping the cause; a
successful `Put` commits, overwriting the entry at the same key bytes. -/
theorem c3_put_abort_or_commit {K V : Type} (cK : Codec K) (cV : Codec V)
    (ref : DBRef) (cl : Client) (k : K) (v : V) :
    (∀ e cl2, put cK cV ref cl k v = (Outcome.errored e, cl2) →
      cl2 = cl ∧ errorsIs e ErrPutFailed = true) ∧
    (∀ cl2 eng keyB valB, cl.db = some eng → cK.enc k = Except.ok keyB →
      cV.enc v = Except.ok valB → put cK cV ref cl k v = (Outcome.ok (), cl2) →
      cl2 = { cl with db := some { eng with
        store := insertKV eng.store (ref.id, keyB) valB } } ∧
      lookupKV (insertKV eng.store (ref.id, keyB) valB) (ref.id, keyB) = some valB) := by
  constructor
  · intro e cl2 h
    by_cases hw : ref.hasOwner = false
    · simp [put, hw] at h
    · cases hdb : cl.db with
      | none => simp [put, hw, hdb] at h
      | some eng =>
        cases hp : putTxn cK cV ref.id k v eng with
        | error msg =>
          simp [put, hw, hdb, hp] at h
          refine ⟨h.2.symm, ?_⟩
          rw [← h.1]
          exact errorsIs_join_left _ _
        | ok eng2 => simp [put, hw, hdb, hp] at h
  · intro cl2 eng keyB valB hdb hk hv h
    by_cases hw : ref.hasOwner = false
    · simp [put, hw] at h
    · cases hp : putTxn cK cV ref.id k v eng with
      | error msg => simp [put, hw, hdb, hp] at h
      | ok eng2 =>
        simp [put, hw, hdb, hp] at h
        obtain ⟨keyB2, valB2, hc, hk2, hv2, hmf, heng⟩ :=
          putTxn_ok_inv cK cV ref.id k v eng eng2 hp
        rw [hk] at hk2
        cases hk2
        rw [hv] at hv2
        cases hv2
        refine ⟨?_, lookupKV_insertKV_self eng.store (ref.id, keyB) valB⟩
        rw [← h, heng]

/-- The error a `Put` through an unregistered sub-database name produces. -/
def ePutGhost : GoErr :=
  GoErr.joinErr ErrPutFailed (GoErr.newErr (getDbRefMsg ++ notFoundMsg))

/-- The error a `Put` whose engine write fails with a full map produces. -/
def ePutFull : GoErr :=
  GoErr.joinErr ErrPutFailed (GoErr.newErr (putFailMsg ++ mapFullMsg))

/-- C3 witness: an aborting `Put` on the unregistered "ghost" reference, an
aborting `Put` whose engine write fails on the exhausted map, and a
committing `Put` of (1, 2) through "users". -/
theorem c3_witness :
    (clOpened = clOpened ∧ errorsIs ePutGhost ErrPutFailed = true) ∧
    (clFull = clFull ∧ errorsIs ePutFull ErrPutFailed = true) ∧
    (clPut = { clOpened with db := some { engUsers with
        store := insertKV engUsers.store ("users", [1]) [2] } } ∧
      lookupKV (insertKV engUsers.store ("users", [1]) [2]) ("users", [1]) = some [2]) := by
  refine ⟨?_, ?_, ?_⟩
  · exact (c3_put_abort_or_commit natCodec natCodec refGhost clOpened 1 2).1
      ePutGhost clOpened rfl
  · exact (c3_put_abort_or_commit natCodec natCodec refUsers clFull 1 2).1
      ePutFull clFull rfl
  · exact (c3_put_abort_or_commit natCodec natCodec refUsers clOpened 1 2).2
      clPut engUsers [1] [2] rfl rfl rfl rfl

/-- Initialization on a handle whose once guard already ran and left no
connection fails with the plain initialization error, touching nothing. -/
lemma initRef_after_once_failed (w2 : World) (refID2 : String) (cl : Client)
    (hd : cl.initOnceDone = true) (hdb : cl.db = none) :
    initRef w2 refID2 cl = (Outcome.errored (GoErr.newErr initFailMsg), cl) := by
  simp [initRef, ensureOpen, hd, hdb]

/-- A panicking `initRef` call is exactly a failing once-guarded open. -/
lemma initRef_panicked_inv {w : World} {refID : String} {cl : Client}
    {msg : String} {cl1 : Client}
    (h : initRef w refID cl = (Outcome.panicked msg, cl1)) :
    ensureOpen w cl = (cl1, some msg) := by
  rcases hE : ensureOpen w cl with ⟨cl0, m⟩
  cases m with
  | some m0 =>
    simp [initRef, hE] at h
    rw [h.1, h.2]
  | none =>
    cases hdb : cl0.db with
    | none => simp [initRef, hE, hdb] at h
    | some eng =>
      cases hcr : dbRefCreate eng refID with
      | error e => simp [initRef, hE, hdb, hcr] at h
      | ok eng2 => simp [initRef, hE, hdb, hcr] at h

/-- A failing once-guarded open happens only on the first call and marks the
guard done without opening a connection. -/
lemma ensureOpen_some_inv {w : World} {cl cl1 : Client} {msg : String}
    (h : ensureOpen w cl = (cl1, some msg)) :
    cl.initOnceDone = false ∧ cl1 = { cl with initOnceDone := true } := by
  by_cases hd : cl.initOnceDone
  · simp [ensureOpen, hd] at h
  · refine ⟨by simpa using hd, ?_⟩
    by_cases h1 : w.dirExists = false ∧ w.mkdirOk = false
    · simp [ensureOpen, hd, h1] at h
      rw [← h.1]
    · by_cases h2 : w.openOk = false
      · simp [ensureOpen, hd, h1, h2] at h
        rw [← h.1]
      · simp [ensureOpen, hd, h1, h2] at h

/-- A once-guarded open that does not panic leaves the guard done. -/
lemma ensureOpen_none_once {w : World} {cl cl1 : Client}
    (h : ensureOpen w cl = (cl1, none)) : cl1.initOnceDone = true := by
  by_cases hd : cl.initOnceDone
  · simp [ensureOpen, hd] at h
    rw [← h]
    exact hd
  · by_cases h1 : w.dirExists = false ∧ w.mkdirOk = false
    · simp [ensureOpen, hd, h1] at h
    · by_cases h2 : w.openOk = false
      · simp [ensureOpen, hd, h1, h2] at h
      · simp [ensureOpen, hd, h1, h2] at h
        rw [← h]

/-- Inversion of a successful `initRef`: the open did not panic, a connection
is present, the sub-database was registered, and the reference got bound. -/
lemma initRef_ok_inv {w : World} {refID : String} {cl : Client}
    {r : DBRef} {cl1 : Client}
    (h : initRef w refID cl = (Outcome.ok r, cl1)) :
    ∃ cl0 eng eng2, ensureOpen w cl = (cl0, none) ∧ cl0.db = some eng ∧
      dbRefCreate eng refID = Except.ok eng2 ∧
      r = { id := refID, hasOwner := true } ∧ cl1 = { cl0 with db := some eng2 } := by
  rcases hE : ensureOpen w cl with ⟨cl0, m⟩
  cases m with
  | some m0 => simp [initRef, hE] at h
  | none =>
    cases hdb : cl0.db with
    | none => simp [initRef, hE, hdb] at h
    | some eng =>
      cases hcr : dbRefCreate eng refID with
      | error e => simp [initRef, hE, hdb, hcr] at h
      | ok eng2 =>
        simp [initRef, hE, hdb, hcr] at h
        exact ⟨cl0, eng, eng2, rfl, hdb, hcr, h.1.symm, h.2.symm⟩

/-- C4 counterexample: on a handle whose backing directory cannot be
created, the first initialization call panics instead of returning an
initialization error. -/
theorem c4_counterexample :
    initRef badDirWorld "users" clFresh = (Outcome.panicked mkdirFailMsg, clFailed) := by
  rfl

/-- C4 as amended: when directory creation or the engine open fails, the
first initialization call panics (the once guard still completes), and every
later initialization call on that handle returns an initialization error
with the reference left unusable. -/
theorem c4_corrected_first_init_panics (w : World) (refID : String) (cl : Client)
    (h0 : cl.db = none) (h1 : cl.initOnceDone = false)
    (hfail : (w.dirExists = false ∧ w.mkdirOk = false) ∨ w.openOk = false) :
    initRef w refID cl =
      (Outcome.panicked (if w.dirExists = false ∧ w.mkdirOk = false
        then mkdirFailMsg else openFailMsg), { cl with initOnceDone := true }) ∧
    ∀ w2 refID2, initRef w2 refID2 { cl with initOnceDone := true } =
      (Outcome.errored (GoErr.newErr initFailMsg), { cl with initOnceDone := true }) := by
  constructor
  · by_cases hd : w.dirExists = false ∧ w.mkdirOk = false
    · simp [initRef, ensureOpen, h1, hd]
    · have ho : w.openOk = false := by
        rcases hfail with hf | hf
        · exact absurd hf hd
        · exact hf
      simp [initRef, ensureOpen, h1, hd, ho]
  · intro w2 refID2
    exact initRef_after_once_failed w2 refID2 _ rfl h0

/-- C4 witness: a failing engine open panics the first call; a later call on
the same handle returns the initialization error. -/
theorem c4_witness :
    initRef badOpenWorld "users" clFresh = (Outcome.panicked openFailMsg, clFailed) ∧
    initRef okWorld "other" clFailed =
      (Outcome.errored (GoErr.newErr initFailMsg), clFailed) := by
  have h := c4_corrected_first_init_panics badOpenWorld "users" clFresh rfl rfl (Or.inr rfl)
  refine ⟨?_, h.2 okWorld "other"⟩
  simpa [badOpenWorld, clFailed] using h.1

/-- C5 counterexample: on the zero-valued (uninitialized) reference, `Put`
and `Get` are not prevented and return no error: they dereference the nil
owner handle and panic. -/
theorem c5_counterexample :
    put natCodec natCodec DBRef.uninit clFresh 1 2 = (Outcome.panicked nilDerefMsg, clFresh) ∧
    get natCodec natCodec 0 DBRef.uninit clFresh 1 = GetOut.panicked nilDerefMsg :=
  ⟨rfl, rfl⟩

/-- C5 as amended: calling `Put` or `Get` on an uninitialized reference is
neither prevented by construction nor surfaced as an error; both calls
dereference the absent owner handle and panic. -/
theorem c5_corrected_uninit_panics {K V : Type} (cK : Codec K) (cV : Codec V)
    (zeroV : V) (ref : DBRef) (cl : Client) (k : K) (v : V)
    (h : ref.hasOwner = false) :
    put cK cV ref cl k v = (Outcome.panicked nilDerefMsg, cl) ∧
    get cK cV zeroV ref cl k = GetOut.panicked nilDerefMsg := by
  simp [put, get, h]

/-- C5 witness: the amended statement at the zero-valued reference. -/
theorem c5_witness :
    put natCodec natCodec DBRef.uninit clOpened 3 4 = (Outcome.panicked nilDerefMsg, clOpened) ∧
    get natCodec natCodec 0 DBRef.uninit clOpened 3 = GetOut.panicked nilDerefMsg :=
  c5_corrected_uninit_panics natCodec natCodec 0 DBRef.uninit clOpened 3 4 rfl

/-- C6: after a successful initialization, initializing again with the same
identifier succeeds, yields the same reference and leaves the client
unchanged — re-resolving a registered name does not fail as already-exists. -/
theorem c6_init_idempotent (w w2 : World) (refID : String) (cl cl1 : Client)
    (r : DBRef) (h : initRef w refID cl = (Outcome.ok r, cl1)) :
    initRef w2 refID cl1 = (Outcome.ok r, cl1) := by
  obtain ⟨cl0, eng, eng2, hE, hdb, hcr, hr, hcl⟩ := initRef_ok_inv h
  have hdone0 : cl0.initOnceDone = true := ensureOpen_none_once hE
  have hdone1 : cl1.initOnceDone = true := by rw [hcl]; exact hdone0
  have hdb1 : cl1.db = some eng2 := by rw [hcl]
  have hcr2 : dbRefCreate eng2 refID = Except.ok eng2 :=
    dbRefCreate_of_contains (dbRefCreate_ok_contains hcr)
  have hrun : initRef w2 refID cl1 =
      (Outcome.ok { id := refID, hasOwner := true }, { cl1 with db := some eng2 }) := by
    simp [initRef, ensureOpen, hdone1, hdb1, hcr2]
  have hfix : { cl1 with db := some eng2 } = cl1 := by rw [hcl]
  rw [hrun, hr, hfix]

/-- C6 witness: initializing "users" a second time on the already-opened
client succeeds identically. -/
theorem c6_witness : initRef okWorld "users" clOpened = (Outcome.ok refUsers, clOpened) :=
  c6_init_idempotent okWorld okWorld "users" clFresh clOpened refUsers rfl

/-- C7: if the first open attempt panics, the once guard is spent with no
connection, and every later initialization call on the handle — under any
filesystem/engine behaviour, so without re-running the open — fails with the
initialization error and changes nothing. -/
theorem c7_failed_open_is_permanent (w : World) (refID : String) (cl : Client)
    (msg : String) (cl1 : Client) (h0 : cl.db = none)
    (h : initRef w refID cl = (Outcome.panicked msg, cl1)) :
    cl1.initOnceDone = true ∧ cl1.db = none ∧
    ∀ w2 refID2, initRef w2 refID2 cl1 =
      (Outcome.errored (GoErr.newErr initFailMsg), cl1) := by
  have hE := initRef_panicked_inv h
  obtain ⟨hd, hcl⟩ := ensureOpen_some_inv hE
  have h1 : cl1.initOnceDone = true := by rw [hcl]
  have h2 : cl1.db = none := by rw [hcl]; exact h0
  exact ⟨h1, h2, fun w2 refID2 => initRef_after_once_failed w2 refID2 cl1 h1 h2⟩

/-- C7 witness: after the directory-creation panic, a later initialization
in a fully healthy world still fails with the initialization error. -/
theorem c7_witness :
    clFailed.initOnceDone = true ∧ clFailed.db = none ∧
    initRef okWorld "users2" clFailed =
      (Outcome.errored (GoErr.newErr initFailMsg), clFailed) := by
  have h := c7_failed_open_is_permanent badDirWorld "users" clFresh mkdirFailMsg clFailed rfl rfl
  exact ⟨h.1, h.2.1, h.2.2 okWorld "users2"⟩

/-- Does the option list specify the reader count? -/
def setsNumReaders (opts : List DBOption) : Bool :=
  opts.any fun o => match o with
    | DBOption.withNumReaders _ => true
    | _ => false

/-- Does the option list specify the sub-database count? -/
def setsNumDBs (opts : List DBOption) : Bool :=
  opts.any fun o => match o with
    | DBOption.withNumDBs _ => true
    | _ => false

/-- Does the option list specify the write-batch size? -/
def setsBatchSize (opts : List DBOption) : Bool :=
  opts.any fun o => match o with
    | DBOption.withBatchSize _ => true
    | _ => false

/-- Does the option list specify a logger? -/
def setsLogger (opts : List DBOption) : Bool :=
  opts.any fun o => match o with
    | DBOption.withLogger _ => true
    | _ => false

/-- Applying any list of the declared options never fails. -/
lemma applyOptions_ok_ex (o : RawOptions) (opts : List DBOption) :
    ∃ o2, applyOptions o opts = Except.ok o2 := by
  induction opts generalizing o with
  | nil => exact ⟨o, rfl⟩
  | cons opt rest ih =>
    cases opt with
    | withNumReaders n => simpa [applyOptions, applyOption] using ih { o with numReaders := some n }
    | withNumDBs n => simpa [applyOptions, applyOption] using ih { o with numDbs := some n }
    | withBatchSize n => simpa [applyOptions, applyOption] using ih { o with batchSize := some n }
    | withLogger l => simpa [applyOptions, applyOption] using ih { o with log := some l }

/-- An option list that never sets the reader count leaves it unchanged. -/
lemma applyOptions_numReaders (o : RawOptions) (opts : List DBOption) (o2 : RawOptions)
    (h : applyOptions o opts = Except.ok o2) (hs : setsNumReaders opts = false) :
    o2.numReaders = o.numReaders := by
  induction opts generalizing o with
  | nil =>
    simp [applyOptions] at h
    rw [← h]
  | cons opt rest ih =>
    cases opt with
    | withNumReaders n => simp [setsNumReaders] at hs
    | withNumDBs n =>
      exact ih { o with numDbs := some n }
        (by simpa [applyOptions, applyOption] using h) (by simpa [setsNumReaders] using hs)
    | withBatchSize n =>
      exact ih { o with batchSize := some n }
        (by simpa [applyOptions, applyOption] using h) (by simpa [setsNumReaders] using hs)
    | withLogger l =>
      exact ih { o with log := some l }
        (by simpa [applyOptions, applyOption] using h) (by simpa [setsNumReaders] using hs)

/-- An option list that never sets the sub-database count leaves it unchanged. -/
lemma applyOptions_numDbs (o : RawOptions) (opts : List DBOption) (o2 : RawOptions)
    (h : applyOptions o opts = Except.ok o2) (hs : setsNumDBs opts = false) :
    o2.numDbs = o.numDbs := by
  induction opts generalizing o with
  | nil =>
    simp [applyOptions] at h
    rw [← h]
  | cons opt rest ih =>
    cases opt with
    | withNumDBs n => simp [setsNumDBs] at hs
    | withNumReaders n =>
      exact ih { o with numReaders := some n }
        (by simpa [applyOptions, applyOption] using h) (by simpa [setsNumDBs] using hs)
    | withBatchSize n =>
      exact ih { o with batchSize := some n }
        (by simpa [applyOptions, applyOption] using h) (by simpa [setsNumDBs] using hs)
    | withLogger l =>
      exact ih { o with log := some l }
        (by simpa [applyOptions, applyOption] using h) (by simpa [setsNumDBs] using hs)

/-- An option list that never sets the batch size leaves it unchanged. -/
lemma applyOptions_batchSize (o : RawOptions) (opts : List DBOption) (o2 : RawOptions)
    (h : applyOptions o opts = Except.ok o2) (hs : setsBatchSize opts = false) :
    o2.batchSize = o.batchSize := by
  induction opts generalizing o with
  | nil =>
    simp [applyOptions] at h
    rw [← h]
  | cons opt rest ih =>
    cases opt with
    | withBatchSize n => simp [setsBatchSize] at hs
    | withNumReaders n =>
      exact ih { o with numReaders := some n }
        (by simpa [applyOptions, applyOption] using h) (by simpa [setsBatchSize] using hs)
    | withNumDBs n =>
      exact ih { o with numDbs := some n }
        (by simpa [applyOptions, applyOption] using h) (by simpa [setsBatchSize] using hs)
    | withLogger l =>
      exact ih { o with log := some l }
        (by simpa [applyOptions, applyOption] using h) (by simpa [setsBatchSize] using hs)

/-- An option list that never sets a logger leaves the logger unchanged. -/
lemma applyOptions_log (o : RawOptions) (opts : List DBOption) (o2 : RawOptions)
    (h : applyOptions o opts = Except.ok o2) (hs : setsLogger opts = false) :
    o2.log = o.log := by
  induction opts generalizing o with
  | nil =>
    simp [applyOptions] at h
    rw [← h]
  | cons opt rest ih =>
    cases opt with
    | withLogger l => simp [setsLogger] at hs
    | withNumReaders n =>
      exact ih { o with numReaders := some n }
        (by simpa [applyOptions, applyOption] using h) (by simpa [setsLogger] using hs)
    | withNumDBs n =>
      exact ih { o with numDbs := some n }
        (by simpa [applyOptions, applyOption] using h) (by simpa [setsLogger] using hs)
    | withBatchSize n =>
      exact ih { o with batchSize := some n }
        (by simpa [applyOptions, applyOption] using h) (by simpa [setsLogger] using hs)

/-- The options as the default-filling block resolves them. -/
def resolvedOptions (o : RawOptions) : RawOptions :=
  { numReaders := some (o.numReaders.getD 8), numDbs := some (o.numDbs.getD 1), batchSize := some (o.batchSize.getD 1), log := some (o.log.getD Logger.nop) }

/-- The default-filling block resolves every nil field to its default. -/
lemma fillDefaults_spec (o : RawOptions) : fillDefaults o = resolvedOptions o := by
  rcases o with ⟨nr, nd, bs, lg⟩
  cases nr <;> cases nd <;> cases bs <;> cases lg <;> rfl

/-- C8: constructing a handle never fails, performs no engine open (the
connection is nil and the once guard untouched), and resolves unspecified
configuration to the defaults: 8 readers, 1 sub-database, batch size 1 and
the no-op logger. -/
theorem c8_new_never_fails_defaults (path : String) (opts : List DBOption) :
    ∃ c, new path opts = Except.ok c ∧ c.db = none ∧ c.path = path ∧
      c.initOnceDone = false ∧
      (setsNumReaders opts = false → c.options.numReaders = some 8) ∧
      (setsNumDBs opts = false → c.options.numDbs = some 1) ∧
      (setsBatchSize opts = false → c.options.batchSize = some 1) ∧
      (setsLogger opts = false → c.options.log = some Logger.nop) := by
  obtain ⟨o2, hok⟩ := applyOptions_ok_ex
    { numReaders := none, numDbs := none, batchSize := none, log := none } opts
  refine ⟨{ db := none, path := path, initOnceDone := false, options := fillDefaults o2 },
    ?_, rfl, rfl, rfl, ?_, ?_, ?_, ?_⟩
  · simp [new, hok]
  · intro hs
    have h1 := applyOptions_numReaders _ _ _ hok hs
    simp [fillDefaults_spec, resolvedOptions, h1]
  · intro hs
    have h1 := applyOptions_numDbs _ _ _ hok hs
    simp [fillDefaults_spec, resolvedOptions, h1]
  · intro hs
    have h1 := applyOptions_batchSize _ _ _ hok hs
    simp [fillDefaults_spec, resolvedOptions, h1]
  · intro hs
    have h1 := applyOptions_log _ _ _ hok hs
    simp [fillDefaults_spec, resolvedOptions, h1]

/-- C8 witness: with no options, `new` yields the fresh client with all
defaults resolved. -/
theorem c8_witness :
    new "/data/x" [] = Except.ok clFresh ∧ clFresh.db = none ∧
    clFresh.options.numReaders = some 8 ∧ clFresh.options.numDbs = some 1 ∧
    clFresh.options.batchSize = some 1 ∧ clFresh.options.log = some Logger.nop := by
  obtain ⟨c, hok, hdb, hpath, honce, hr, hd, hb, hl⟩ :=
    c8_new_never_fails_defaults "/data/x" []
  have hc : c = clFresh := by
    have hval : new "/data/x" [] = Except.ok clFresh := rfl
    rw [hval] at hok
    cases hok
    rfl
  subst hc
  exact ⟨hok ▸ rfl, hdb, hr rfl, hd rfl, hb rfl, hl rfl⟩

/-- C10: `Close` on a client whose connection was never opened calls
`TerminateSync` through a nil pointer and panics; with an open connection
it returns normally. -/
theorem c10_close_unopened_panics (cl : Client) (h : cl.db = none) :
    close cl = Outcome.panicked nilDerefMsg := by
  simp [close, h]

/-- C10 witness: closing the freshly constructed, never-initialized client
panics. -/
theorem c10_witness : close clFresh = Outcome.panicked nilDerefMsg :=
  c10_close_unopened_panics clFresh rfl

end Ezdb
